import Mathlib

/-!
Verification of the KidsLand asset-acquisition scripts.

This file gives a shallow embedding of the discovery-and-fetch pipeline of
`scripts/download_minecraft_wiki_renders.py` (category walker, file-page
resolver, filename sanitizer, idempotent download loop) and of the
catalog-driven loop of `scripts/download_items.py`, and proves the
spec-level properties about them.

Network and filesystem effects are made explicit: an oracle function maps a
URL to the parsed document (or `none` on a fetch failure), the filesystem is
a map from paths to file contents, and every processing step threads a run
state that also records the network requests issued.
-/

/- ### Basic string machinery

Python string operations used by the scripts, modelled on `List Char`
(Python `len`/slicing are character based, as are Lean `String.data`
operations). -/

/-- `strStarts pat s` : `pat` is an initial segment of `s`. -/
def strStarts : List Char → List Char → Bool
  | [], _ => true
  | _ :: _, [] => false
  | a :: pas, b :: bs => a = b && strStarts pas bs

/-- `hasSubAux pat s` : `pat` occurs contiguously somewhere in `s`
(Python `pat in s`). -/
def hasSubAux (pat : List Char) : List Char → Bool
  | [] => strStarts pat []
  | c :: cs => strStarts pat (c :: cs) || hasSubAux pat cs

/-- Python `pat in s` on strings. -/
def hasSub (pat s : String) : Bool := hasSubAux pat.data s.data

/-- Python `s.endswith(post)`. -/
def strEndsWith (s post : String) : Bool := strStarts post.data.reverse s.data.reverse

/-- The tail of `s` after the last occurrence of the (non-self-overlapping)
separator `pat`, or `none` when `pat` does not occur: this is Python
`s.split(pat)[-1]` restricted to the occurrence/no-occurrence distinction. -/
def lastSplitTail (pat : List Char) : List Char → Option (List Char)
  | [] => if pat = [] then some [] else none
  | c :: cs =>
      match lastSplitTail pat cs with
      | some t => some t
      | none => if strStarts pat (c :: cs) then some ((c :: cs).drop pat.length) else none

/-- Python `s.split(pat)[-1]`: everything after the last occurrence of
`pat`, or `s` itself when `pat` does not occur. -/
def splitLastStr (pat s : String) : String :=
  match lastSplitTail pat.data s.data with
  | some t => String.mk t
  | none => s

/-- One hex digit? (for percent escapes). -/
def isHexDig (c : Char) : Bool :=
  c.isDigit || ('a' ≤ c && c ≤ 'f') || ('A' ≤ c && c ≤ 'F')

/-- Value of a hex digit. -/
def hexVal (c : Char) : Nat :=
  if c.isDigit then c.toNat - '0'.toNat
  else if 'a' ≤ c then c.toNat - 'a'.toNat + 10
  else c.toNat - 'A'.toNat + 10

/-- Modelled from `urllib.parse.unquote`: each `%XY` escape with two hex
digits is replaced by the character with code `0xXY`; malformed escapes are
left untouched.  (The library additionally merges multi-byte UTF-8 escape
runs into single characters; the claims under verification do not depend on
that refinement, only on escapes being decoded before sanitisation.) -/
def unquoteAux : List Char → List Char
  | '%' :: a :: b :: rest =>
      if isHexDig a && isHexDig b then
        Char.ofNat (16 * hexVal a + hexVal b) :: unquoteAux rest
      else '%' :: unquoteAux (a :: b :: rest)
  | c :: rest => c :: unquoteAux rest
  | [] => []

/-- `urllib.parse.unquote` on `String`. -/
def unquote (s : String) : String := String.mk (unquoteAux s.data)

/-- The characters removed by `re.sub(r'[<>:"/\\|?*]', '_', filename)`. -/
def BAD_CHARS : List Char := ['<', '>', ':', '"', '/', '\\', '|', '?', '*']

/-- `re.sub(r'[<>:"/\\|?*]', '_', s)`: replace each listed character by an
underscore. -/
def replaceBadChars (s : String) : String :=
  String.mk (s.data.map (fun c => if c ∈ BAD_CHARS then '_' else c))

/-- Index of the last `'.'` in the list, if any. -/
def lastDotIdx : List Char → Option Nat
  | [] => none
  | c :: cs =>
      match lastDotIdx cs with
      | some i => some (i + 1)
      | none => if c = '.' then some 0 else none

/-- Modelled from `os.path.splitext` for names without path separators (the
script applies it after `/` and `\` have been replaced): split at the last
dot, unless only dots precede it (a leading-dots name has no extension). -/
def splitextList (l : List Char) : List Char × List Char :=
  match lastDotIdx l with
  | none => (l, [])
  | some i =>
      if (l.take i).all (fun c => c = '.') then (l, [])
      else (l.take i, l.drop i)

/- ### Fixed configuration of the scripts -/

/-- `BASE_URL` in `download_minecraft_wiki_renders.py`. -/
def BASE_URL : String := "https://minecraft.wiki"

/-- `CATEGORY_URL` in `download_minecraft_wiki_renders.py`. -/
def CATEGORY_URL : String := "https://minecraft.wiki/w/Category:Mob_renders"

/-- `OUTPUT_DIR` in both scripts:
`os.path.join(os.path.dirname(__file__), "..", "public", "images", "minecraft-renders")`,
with the script directory modelled as `"scripts"`. -/
def OUTPUT_DIR : String := "scripts/../public/images/minecraft-renders"

/-- `API_URL` in `download_items.py`. -/
def API_URL : String := "https://minecraft.wiki/api.php"

/-- Modelled from `urllib.parse.urljoin` for the href shapes the wiki
serves: an absolute `http(s)` URL is returned unchanged, an empty href
resolves to the base itself, an absolute path is appended to the host, and
any other relative href is attached with a separating slash. -/
def urljoin (base href : String) : String :=
  if strStarts "http://".data href.data || strStarts "https://".data href.data then href
  else if href = "" then base
  else if strStarts "/".data href.data then base ++ href
  else base ++ "/" ++ href

/- ### Filename Sanitizer (`sanitize_filename`, lines 127-137) -/

/-- `sanitize_filename` from `download_minecraft_wiki_renders.py`:
URL-decode, replace problematic characters, and cap the length at 200 by
truncating the base name to 195 characters while keeping the extension. -/
def sanitize_filename (s : String) : String :=
  let filename := unquote s
  let filename := replaceBadChars filename
  if filename.length > 200 then
    let ne := splitextList filename.data
    String.mk (ne.1.take 195 ++ ne.2)
  else filename

/-- The sanitizer as the spec words it (§4.4): percent-decode, then replace
the problematic characters, then apply the length cap — three separate
stages in that order. -/
def truncateStep (s : String) : String :=
  if s.length > 200 then
    let ne := splitextList s.data
    String.mk (ne.1.take 195 ++ ne.2)
  else s

/-- Staged form of the sanitizer following the spec's wording. -/
def sanitizeStaged (s : String) : String := truncateStep (replaceBadChars (unquote s))

/- ### Category Walker (`get_image_urls_from_category`, lines 40-86)

A category page is modelled by what the two selectors and the "next page"
search extract from its parsed document:
* `containerHrefs` — the `href` values of the `<a href>` anchors inside the
  `mw-category-media` container (found by class or by id), in document
  order; `[]` when the container is absent;
* `galleryHrefs` — the `href` values of the `.gallerybox .thumb a`
  elements, in document order;
* `nextHref` — `a.get("href", "")` of the first anchor whose text contains
  `"next page"` case-insensitively, or `none` when no such anchor exists.

A fetch oracle `String → Option CategoryPage` stands for `get_page`: `none`
models a transport error, timeout or non-2xx status (the function logs and
returns `None`). -/

structure CategoryPage where
  containerHrefs : List String
  galleryHrefs : List String
  nextHref : Option String
  deriving DecidableEq

/-- The new frontier computed at the bottom of the walker loop (lines
73-84): resolve the "next page" href against the base, and continue with it
only when it differs from the current page's URL. -/
def frontierOf (p : CategoryPage) (current : String) : Option String :=
  match p.nextHref with
  | none => none
  | some h =>
      let nxt := urljoin BASE_URL h
      if nxt = current then none else some nxt

/-- Link extraction on one category page (lines 54-71): first every anchor
of the media container whose raw href contains `"/w/File:"` is appended
(unconditionally, as in the source); then every matching gallery anchor is
appended unless its resolved URL is already in the accumulated list. -/
def pageFileLinks (acc : List String) (p : CategoryPage) : List String :=
  let acc1 := p.containerHrefs.foldl
    (fun a h => if hasSub "/w/File:" h then a ++ [urljoin BASE_URL h] else a) acc
  p.galleryHrefs.foldl
    (fun a h =>
      if hasSub "/w/File:" h then
        let u := urljoin BASE_URL h
        if u ∈ a then a else a ++ [u]
      else a) acc1

/-- The file-page URLs one page contributes, as a plain list (used to state
what the per-page extraction collects). -/
def pageLinks (p : CategoryPage) : List String :=
  (p.containerHrefs ++ p.galleryHrefs).filterMap
    (fun h => if hasSub "/w/File:" h then some (urljoin BASE_URL h) else none)

/-- The walker's `while current_url:` loop, with explicit fuel standing for
the a-priori bound on the number of pages (the Python loop has none; every
theorem below about a finite chain supplies enough fuel and shows the loop
stops before exhausting it).  The returned `Nat` is `page_count`, which the
source increments on entering the loop body, before the fetch. -/
def walkPages (oracle : String → Option CategoryPage) :
    Nat → Option String → List String → Nat → List String × Nat
  | _, none, acc, cnt => (acc, cnt)
  | 0, some _, acc, cnt => (acc, cnt)
  | fuel + 1, some url, acc, cnt =>
      match oracle url with
      | none => (acc, cnt + 1)
      | some p => walkPages oracle fuel (frontierOf p url) (pageFileLinks acc p) (cnt + 1)

/-- `get_image_urls_from_category`: run the pagination loop from the
category URL and return `list(set(all_file_pages))` together with the page
count.  (`set` deduplicates; its iteration order is arbitrary, modelled
here by `List.dedup`, which keeps first occurrences — the claims about the
result only concern it as a set.) -/
def get_image_urls_from_category (oracle : String → Option CategoryPage)
    (fuel : Nat) (category_url : String) : List String × Nat :=
  let r := walkPages oracle fuel (some category_url) [] 0
  (r.1.dedup, r.2)

/- ### File-Page Resolver (`get_full_image_url`, lines 89-109)

A file page is modelled by what the two selectors can extract:
* `fullImageHref` — the `href` of the first anchor inside the
  `div.fullImageLink` container, when the container and the anchor exist
  (`some ""` when the attribute is present but empty — the source tests
  `img.get("href")` for truthiness, so an empty href also falls through);
  `none` covers a missing container, anchor or attribute;
* `fullMediaHref` — the `href` of the first `<a href>` inside the
  `div.fullMedia` container, `none` when container or anchor is absent. -/

structure FilePageDoc where
  fullImageHref : Option String
  fullMediaHref : Option String
  deriving DecidableEq

/-- `get_full_image_url`: fetch the file page; return the primary
(`fullImageLink`) anchor's href resolved against the base when it is
present and non-empty, else the fallback (`fullMedia`) anchor's href
resolved likewise, else `none`. -/
def get_full_image_url (oracle : String → Option FilePageDoc)
    (file_page_url : String) : Option String :=
  match oracle file_page_url with
  | none => none
  | some d =>
      match d.fullImageHref with
      | some h =>
          if h ≠ "" then some (urljoin BASE_URL h)
          else
            match d.fullMediaHref with
            | some h2 => some (urljoin BASE_URL h2)
            | none => none
      | none =>
          match d.fullMediaHref with
          | some h2 => some (urljoin BASE_URL h2)
          | none => none

/- ### Idempotent Downloader (`download_image`, lines 112-124)

The filesystem is a map from paths to byte contents (bytes as `Nat`s).  The
behaviour of one streamed GET is modelled by `DlOutcome`:
* `ok bs` — the transfer completes and delivers `bs`;
* `failEarly` — the request raises before any byte is written (connection
  error, timeout, or `raise_for_status` on a non-2xx reply: all of these
  happen before `open(output_path, "wb")`);
* `failMid bs` — the request is accepted, `open` creates the file, `bs` is
  written, and the stream then raises mid-transfer (the `with` block closes
  the file, which remains on disk). -/

/-- Filesystem: path to contents. -/
abbrev FS := String → Option (List Nat)

/-- The empty filesystem. -/
def emptyFS : FS := fun _ => none

inductive DlOutcome where
  | ok (bytes : List Nat)
  | failEarly
  | failMid (written : List Nat)
  deriving DecidableEq

/-- `download_image`: returns the source's boolean result together with the
filesystem after the attempt.  The file appears at `output_path` exactly
when `open` was reached — on success, and on a mid-stream failure. -/
def download_image (outcome : DlOutcome) (output_path : String) (fs : FS) :
    Bool × FS :=
  match outcome with
  | .ok bs => (true, fun p => if p = output_path then some bs else fs p)
  | .failEarly => (false, fs)
  | .failMid bs => (false, fun p => if p = output_path then some bs else fs p)

/-- Did the streamed GET fail (either way)? -/
def dlFails : DlOutcome → Bool
  | .ok _ => false
  | .failEarly => true
  | .failMid _ => true

/- ### Run Orchestrator (`main` of the renders script, lines 140-195) -/

/-- The three counters of lines 157-159. -/
structure Tally where
  downloaded : Nat
  skipped : Nat
  failed : Nat
  deriving DecidableEq

/-- State threaded through the download loop: the filesystem, the tally,
and the network requests issued so far (each fetched file page and each
downloaded image URL, in order). -/
structure RunState where
  fs : FS
  tally : Tally
  requests : List String

/-- Initial state of a run over a given filesystem. -/
def initState (fs : FS) : RunState := { fs := fs, tally := ⟨0, 0, 0⟩, requests := [] }

/-- The upstream behaviour a run sees: file-page fetch results and the
outcome of each image download. -/
structure World where
  pages : String → Option FilePageDoc
  dl : String → DlOutcome

/-- Destination path of one item (lines 162-165):
`os.path.join(OUTPUT_DIR, sanitize_filename(file_page.split("/w/File:")[-1]))`.
The sanitized name never begins with a separator (separators are replaced
by `_`), so the join is plain concatenation. -/
def destPath (file_page : String) : String :=
  OUTPUT_DIR ++ "/" ++ sanitize_filename (splitLastStr "/w/File:" file_page)

/-- One iteration of the download loop (lines 161-189): skip when the
destination exists — before any network traffic; otherwise resolve the file
page (one request), counting a miss as failed; otherwise download (another
request), counting the outcome. -/
def processItem (w : World) (st : RunState) (file_page : String) : RunState :=
  let path := destPath file_page
  match st.fs path with
  | some _ => { st with tally := { st.tally with skipped := st.tally.skipped + 1 } }
  | none =>
      let st1 := { st with requests := st.requests ++ [file_page] }
      match get_full_image_url w.pages file_page with
      | none => { st1 with tally := { st1.tally with failed := st1.tally.failed + 1 } }
      | some image_url =>
          let st2 := { st1 with requests := st1.requests ++ [image_url] }
          match download_image (w.dl image_url) path st1.fs with
          | (true, fs2) =>
              { st2 with fs := fs2,
                         tally := { st2.tally with downloaded := st2.tally.downloaded + 1 } }
          | (false, fs2) =>
              { st2 with fs := fs2,
                         tally := { st2.tally with failed := st2.tally.failed + 1 } }

/-- The download loop over the discovered file pages. -/
def runMain (w : World) (items : List String) (st : RunState) : RunState :=
  items.foldl (processItem w) st

/- ### Catalog-driven item script (`download_items.py`) -/

/-- The `ITEMS` catalog of `download_items.py` (name, wiki file title), in
source order. -/
def ITEMS : List (String × String) := [
  ("wooden-sword", "File:Wooden_Sword_JE2_BE2.png"),
  ("stone-sword", "File:Stone_Sword_JE2_BE2.png"),
  ("iron-sword", "File:Iron_Sword_JE2_BE2.png"),
  ("golden-sword", "File:Golden_Sword_JE2_BE2.png"),
  ("diamond-sword", "File:Diamond_Sword_JE3_BE3.png"),
  ("netherite-sword", "File:Netherite_Sword_JE2_BE2.png"),
  ("wooden-pickaxe", "File:Wooden_Pickaxe_JE2_BE2.png"),
  ("stone-pickaxe", "File:Stone_Pickaxe_JE2_BE2.png"),
  ("iron-pickaxe", "File:Iron_Pickaxe_JE2_BE2.png"),
  ("golden-pickaxe", "File:Golden_Pickaxe_JE2_BE2.png"),
  ("diamond-pickaxe", "File:Diamond_Pickaxe_JE3_BE3.png"),
  ("netherite-pickaxe", "File:Netherite_Pickaxe_JE2_BE2.png"),
  ("wooden-axe", "File:Wooden_Axe_JE2.png"),
  ("stone-axe", "File:Stone_Axe_JE2.png"),
  ("iron-axe", "File:Iron_Axe_JE2.png"),
  ("golden-axe", "File:Golden_Axe_JE2.png"),
  ("diamond-axe", "File:Diamond_Axe_JE2.png"),
  ("netherite-axe", "File:Netherite_Axe_JE1_BE1.png"),
  ("diamond-shovel", "File:Diamond_Shovel_JE2_BE2.png"),
  ("netherite-shovel", "File:Netherite_Shovel_JE1_BE1.png"),
  ("bow", "File:Bow_(Pull_2)_JE1_BE1.png"),
  ("crossbow", "File:Crossbow_(Pull_2)_JE1_BE1.png"),
  ("arrow", "File:Arrow_JE2_BE2.png"),
  ("trident", "File:Trident_JE1_BE1.png"),
  ("mace", "File:Mace_JE2_BE2.png"),
  ("iron-helmet", "File:Iron_Helmet_JE2_BE2.png"),
  ("diamond-helmet", "File:Diamond_Helmet_JE2_BE2.png"),
  ("netherite-helmet", "File:Netherite_Helmet_JE2_BE1.png"),
  ("iron-chestplate", "File:Iron_Chestplate_JE2_BE2.png"),
  ("diamond-chestplate", "File:Diamond_Chestplate_JE2_BE2.png"),
  ("netherite-chestplate", "File:Netherite_Chestplate_JE2_BE1.png"),
  ("elytra", "File:Elytra_JE2_BE2.png"),
  ("diamond-leggings", "File:Diamond_Leggings_JE2_BE2.png"),
  ("netherite-leggings", "File:Netherite_Leggings_JE2_BE1.png"),
  ("diamond-boots", "File:Diamond_Boots_JE2_BE2.png"),
  ("netherite-boots", "File:Netherite_Boots_JE2_BE1.png"),
  ("shield", "File:Shield_JE2_BE1.png"),
  ("tnt", "File:TNT_JE3_BE2.png"),
  ("tnt-minecart", "File:Minecart_with_TNT_JE2_BE2.png"),
  ("diamond-ore", "File:Diamond_Ore_JE5_BE5.png"),
  ("diamond-block", "File:Block_of_Diamond_JE6_BE3.png"),
  ("emerald-ore", "File:Emerald_Ore_JE4_BE3.png"),
  ("emerald-block", "File:Block_of_Emerald_JE4_BE3.png"),
  ("gold-ore", "File:Gold_Ore_JE7_BE4.png"),
  ("gold-block", "File:Block_of_Gold_JE6_BE3.png"),
  ("iron-ore", "File:Iron_Ore_JE6_BE4.png"),
  ("iron-block", "File:Block_of_Iron_JE4_BE3.png"),
  ("netherite-block", "File:Block_of_Netherite_JE1_BE1.png"),
  ("ancient-debris", "File:Ancient_Debris_JE1_BE1.png"),
  ("beacon", "File:Beacon_JE5_BE2.png"),
  ("enchanting-table", "File:Enchanting_Table.gif"),
  ("anvil", "File:Anvil_JE3.png"),
  ("chest", "File:Chest_(S)_JE2_BE2.png"),
  ("ender-chest", "File:Ender_Chest_(S)_JE2_BE2.png"),
  ("crafting-table", "File:Crafting_Table_JE4_BE3.png"),
  ("furnace", "File:Furnace_(S)_JE4.png"),
  ("brewing-stand", "File:Brewing_Stand_JE10.png"),
  ("grass-block", "File:Grass_Block_JE7_BE6.png"),
  ("dirt", "File:Dirt_JE2_BE2.png"),
  ("stone", "File:Stone_JE4_BE2.png"),
  ("cobblestone", "File:Cobblestone_JE5_BE3.png"),
  ("obsidian", "File:Obsidian_JE3_BE2.png"),
  ("bedrock", "File:Bedrock_JE2_BE2.png"),
  ("diamond", "File:Diamond_JE3_BE3.png"),
  ("emerald", "File:Emerald_JE3_BE3.png"),
  ("gold-ingot", "File:Gold_Ingot_JE4_BE2.png"),
  ("iron-ingot", "File:Iron_Ingot_JE3_BE2.png"),
  ("netherite-ingot", "File:Netherite_Ingot_JE1_BE2.png"),
  ("nether-star", "File:Nether_Star_JE2_BE2.png"),
  ("golden-apple", "File:Golden_Apple_JE2_BE2.png"),
  ("enchanted-golden-apple", "File:Enchanted_Golden_Apple_JE2_BE2.png"),
  ("cake", "File:Cake_JE4.png"),
  ("cookie", "File:Cookie_JE2_BE2.png"),
  ("ender-pearl", "File:Ender_Pearl_JE3_BE2.png"),
  ("eye-of-ender", "File:Eye_of_Ender_JE2_BE2.png"),
  ("totem-of-undying", "File:Totem_of_Undying_JE2_BE2.png"),
  ("end-crystal", "File:End_Crystal_JE2_BE2.png"),
  ("dragon-egg", "File:Dragon_Egg_JE4.png"),
  ("potion", "File:Potion_JE2_BE2.png"),
  ("splash-potion", "File:Splash_Potion_JE2_BE2.png"),
  ("experience-bottle", "File:Bottle_o%27_Enchanting_JE2_BE2.png"),
  ("firework-rocket", "File:Firework_Rocket_JE2_BE2.png"),
  ("blaze-rod", "File:Blaze_Rod_JE1_BE1.png"),
  ("ghast-tear", "File:Ghast_Tear_JE2_BE2.png"),
  ("music-disc", "File:Music_Disc_Cat_JE2_BE2.png"),
  ("book", "File:Book_JE2_BE2.png"),
  ("enchanted-book", "File:Enchanted_Book_JE2_BE2.png")]

/-- Extension choice of `download_items.main` (line 212):
`".gif" if file_title.endswith(".gif") else ".png"`. -/
def itemExt (file_title : String) : String :=
  if strEndsWith file_title ".gif" then ".gif" else ".png"

/-- Destination filename of one catalog entry (line 213):
`f"minecraft-{name}{ext}"`. -/
def itemFilename (name file_title : String) : String :=
  "minecraft-" ++ name ++ itemExt file_title

/-- Destination path of one catalog entry (line 214). -/
def itemDestPath (name file_title : String) : String :=
  OUTPUT_DIR ++ "/" ++ itemFilename name file_title

/-- The upstream behaviour the items script sees: the MediaWiki API lookup
(`get_image_url`: title in, image URL or absence out — absence covers the
`"-1"` missing-page id, a missing `imageinfo`, and any request exception)
and the outcome of each image download. -/
structure ItemsWorld where
  api : String → Option String
  dl : String → DlOutcome

/-- One iteration of `download_items.main`'s loop (lines 210-236): skip
when the destination exists; else resolve the title through the API (one
request), counting a miss as failed; else download (another request),
counting the outcome. -/
def processEntry (w : ItemsWorld) (st : RunState) (e : String × String) : RunState :=
  let path := itemDestPath e.1 e.2
  match st.fs path with
  | some _ => { st with tally := { st.tally with skipped := st.tally.skipped + 1 } }
  | none =>
      let st1 := { st with requests := st.requests ++ [e.2] }
      match w.api e.2 with
      | none => { st1 with tally := { st1.tally with failed := st1.tally.failed + 1 } }
      | some image_url =>
          let st2 := { st1 with requests := st1.requests ++ [image_url] }
          match download_image (w.dl image_url) path st1.fs with
          | (true, fs2) =>
              { st2 with fs := fs2,
                         tally := { st2.tally with downloaded := st2.tally.downloaded + 1 } }
          | (false, fs2) =>
              { st2 with fs := fs2,
                         tally := { st2.tally with failed := st2.tally.failed + 1 } }

/-- The items script's loop over the catalog. -/
def runItems (w : ItemsWorld) (entries : List (String × String)) (st : RunState) : RunState :=
  entries.foldl (processEntry w) st

/- ### Helper lemmas -/

/-- Sum of the three counters. -/
def tallyTotal (t : Tally) : Nat := t.downloaded + t.skipped + t.failed

theorem processItem_total (w : World) (st : RunState) (u : String) :
    tallyTotal (processItem w st u).tally = tallyTotal st.tally + 1 := by
  simp only [processItem]
  split
  · simp only [tallyTotal]; omega
  · split
    · simp only [tallyTotal]; omega
    · split
      · simp only [tallyTotal]; omega
      · simp only [tallyTotal]; omega

theorem runMain_total (w : World) :
    ∀ (items : List String) (st : RunState),
      tallyTotal (runMain w items st).tally = tallyTotal st.tally + items.length := by
  intro items
  induction items with
  | nil => intro st; simp [runMain, tallyTotal]
  | cons u us ih =>
      intro st
      simp only [runMain, List.foldl_cons] at *
      rw [ih (processItem w st u), processItem_total, List.length_cons]
      omega

theorem processItem_skip (w : World) (st : RunState) (u : String)
    (h : st.fs (destPath u) ≠ none) :
    processItem w st u =
      { st with tally := { st.tally with skipped := st.tally.skipped + 1 } } := by
  obtain ⟨b, hb⟩ := Option.ne_none_iff_exists'.mp h
  simp [processItem, hb]

theorem runMain_all_skip (w : World) :
    ∀ (items : List String) (st : RunState),
      (∀ u ∈ items, st.fs (destPath u) ≠ none) →
      runMain w items st =
        { st with tally := { st.tally with skipped := st.tally.skipped + items.length } } := by
  intro items
  induction items with
  | nil => intro st _; simp [runMain]
  | cons u us ih =>
      intro st h
      have h1 : st.fs (destPath u) ≠ none := h u (List.mem_cons_self u us)
      simp only [runMain, List.foldl_cons] at *
      rw [processItem_skip w st u h1,
          ih { st with tally := { st.tally with skipped := st.tally.skipped + 1 } }
            (fun v hv => h v (List.mem_cons_of_mem u hv))]
      simp only [List.length_cons, RunState.mk.injEq, Tally.mk.injEq, true_and, and_true]
      omega

theorem splitext_append (l : List Char) : (splitextList l).1 ++ (splitextList l).2 = l := by
  unfold splitextList
  cases h : lastDotIdx l with
  | none => simp
  | some i =>
      by_cases hd : (l.take i).all (fun c => c = '.')
      · simp [hd]
      · simp [hd, List.take_append_drop]

/-- A fold step that appends `f h` exactly for the elements passing `c`
(whether or not it first checks for presence) accumulates, as a set, the
image of the passing elements. -/
theorem mem_foldl_of_step (c : String → Bool) (f : String → String)
    (step : List String → String → List String)
    (hstep : ∀ a h x, x ∈ step a h ↔ x ∈ a ∨ (c h = true ∧ x = f h)) :
    ∀ (hs acc : List String) (x : String),
      x ∈ hs.foldl step acc ↔ x ∈ acc ∨ ∃ h ∈ hs, c h = true ∧ x = f h := by
  intro hs
  induction hs with
  | nil => simp
  | cons h hs ih =>
      intro acc x
      rw [List.foldl_cons, ih, hstep]
      simp only [List.exists_mem_cons_iff]
      tauto

theorem mem_append_step (c : String → Bool) (f : String → String)
    (a : List String) (h x : String) :
    x ∈ (if c h then a ++ [f h] else a) ↔ x ∈ a ∨ (c h = true ∧ x = f h) := by
  by_cases hc : c h
  · simp [hc]
  · simp [hc]

theorem mem_dedup_step (c : String → Bool) (f : String → String)
    (a : List String) (h x : String) :
    x ∈ (if c h then (if f h ∈ a then a else a ++ [f h]) else a) ↔
      x ∈ a ∨ (c h = true ∧ x = f h) := by
  by_cases hc : c h
  · by_cases hm : f h ∈ a
    · simp only [hc, if_pos, hm]
      exact ⟨fun hx => Or.inl hx, fun hx => hx.elim id (fun hp => hp.2 ▸ hm)⟩
    · simp [hc, hm]
  · simp [hc]

theorem mem_pageLinks (p : CategoryPage) (x : String) :
    x ∈ pageLinks p ↔
      ∃ h ∈ p.containerHrefs ++ p.galleryHrefs,
        hasSub "/w/File:" h = true ∧ x = urljoin BASE_URL h := by
  simp only [pageLinks, List.mem_filterMap]
  constructor
  · rintro ⟨h, hh, he⟩
    by_cases hc : hasSub "/w/File:" h
    · simp only [hc, if_pos] at he
      exact ⟨h, hh, hc, (Option.some.inj he).symm⟩
    · simp [hc] at he
  · rintro ⟨h, hh, hc, hx⟩
    exact ⟨h, hh, by simp [hc, hx]⟩

theorem mem_pageFileLinks (acc : List String) (p : CategoryPage) (x : String) :
    x ∈ pageFileLinks acc p ↔ x ∈ acc ∨ x ∈ pageLinks p := by
  simp only [pageFileLinks]
  rw [mem_foldl_of_step (hasSub "/w/File:") (urljoin BASE_URL) _
        (mem_dedup_step (hasSub "/w/File:") (urljoin BASE_URL)),
      mem_foldl_of_step (hasSub "/w/File:") (urljoin BASE_URL) _
        (mem_append_step (hasSub "/w/File:") (urljoin BASE_URL)),
      mem_pageLinks]
  simp only [List.mem_append]
  constructor
  · rintro ((hx | ⟨h, hh, hc, hx⟩) | ⟨h, hh, hc, hx⟩)
    · exact Or.inl hx
    · exact Or.inr ⟨h, Or.inl hh, hc, hx⟩
    · exact Or.inr ⟨h, Or.inr hh, hc, hx⟩
  · rintro (hx | ⟨h, hh | hh, hc, hx⟩)
    · exact Or.inl (Or.inl hx)
    · exact Or.inl (Or.inr ⟨h, hh, hc, hx⟩)
    · exact Or.inr ⟨h, hh, hc, hx⟩

theorem mem_foldl_pageFileLinks :
    ∀ (chain : List (String × CategoryPage)) (acc : List String) (x : String),
      x ∈ chain.foldl (fun a e => pageFileLinks a e.2) acc ↔
        x ∈ acc ∨ ∃ e ∈ chain, x ∈ pageLinks e.2 := by
  intro chain
  induction chain with
  | nil => simp
  | cons e es ih =>
      intro acc x
      rw [List.foldl_cons, ih, mem_pageFileLinks]
      simp only [List.exists_mem_cons_iff]
      tauto

/-- A linear chain of category pages as the walker sees it: each page is
what its URL fetches to, each non-final page's "next page" frontier is the
next URL of the chain, and the final page's frontier is `tail` (`none`
when its "next page" anchor is absent or self-referential, `some u` when
it points on to a further page `u`). -/
def ChainTo (oracle : String → Option CategoryPage) :
    List (String × CategoryPage) → Option String → Prop
  | [], _ => True
  | (u, p) :: rest, tail =>
      oracle u = some p ∧
      frontierOf p u = (match rest with
                        | [] => tail
                        | (u2, _) :: _ => some u2) ∧
      ChainTo oracle rest tail

/-- Following a chain consumes one fuel and one `page_count` per page and
accumulates each page's links, leaving the walker at the chain's tail. -/
theorem walkPages_chain (oracle : String → Option CategoryPage) (tail : Option String) :
    ∀ (rest : List (String × CategoryPage)) (u : String) (p : CategoryPage),
      ChainTo oracle ((u, p) :: rest) tail →
      ∀ (k : Nat) (acc : List String) (cnt : Nat),
        walkPages oracle (k + rest.length + 1) (some u) acc cnt =
          walkPages oracle k tail
            (((u, p) :: rest).foldl (fun a e => pageFileLinks a e.2) acc)
            (cnt + (rest.length + 1)) := by
  intro rest
  induction rest with
  | nil =>
      intro u p h k acc cnt
      obtain ⟨h1, h2, -⟩ := h
      simp only [List.length_nil, Nat.add_zero, List.foldl_cons, List.foldl_nil]
      simp only [walkPages, h1]
      rw [h2]
  | cons e2 rest2 ih =>
      intro u p h k acc cnt
      obtain ⟨u2, p2⟩ := e2
      obtain ⟨h1, h2, h3⟩ := h
      have hfuel : k + ((u2, p2) :: rest2).length + 1 = (k + rest2.length + 1) + 1 := by
        simp only [List.length_cons]; omega
      rw [hfuel]
      simp only [walkPages, h1]
      rw [h2, ih u2 p2 h3 k (pageFileLinks acc p) (cnt + 1)]
      simp only [List.foldl_cons, List.length_cons]
      congr 1
      omega

/- ### The claims -/

/-- C2: for every oracle, fuel bound and starting URL, the list of
file-page URLs returned by the Category Walker contains each URL at most
once (it is duplicate-free), whatever combination of selectors or paginated
views discovered them; since the run loop folds over exactly this list, the
Resolver and Downloader are reached at most once per source URL in a run. -/
theorem categoryWalker_dedup (oracle : String → Option CategoryPage)
    (fuel : Nat) (category_url : String) :
    (get_image_urls_from_category oracle fuel category_url).1.Nodup ∧
    ∀ u, (get_image_urls_from_category oracle fuel category_url).1.count u ≤ 1 := by
  have hnd : (get_image_urls_from_category oracle fuel category_url).1.Nodup := by
    simp only [get_image_urls_from_category]
    exact List.nodup_dedup _
  exact ⟨hnd, fun u => List.nodup_iff_count_le_one.mp hnd u⟩

/-- C10: at the end of every run of the category-driven script over any
list of discovered file pages, `downloaded + skipped + failed` equals the
number of file pages: each iteration increments exactly one counter. -/
theorem tally_partition (w : World) (items : List String) (fs0 : FS) :
    (runMain w items (initState fs0)).tally.downloaded +
      (runMain w items (initState fs0)).tally.skipped +
      (runMain w items (initState fs0)).tally.failed = items.length := by
  have h := runMain_total w items (initState fs0)
  simpa [tallyTotal, initState] using h

/-- C3: the Filename Sanitizer is the composition, in order, of
percent-decoding, replacing each of the characters `< > : " / \ | ? *`
by an underscore, and the 200-character length cap that truncates the base
name while keeping the extension; it is deterministic; and every title
longer than 200 characters whose (decoded and cleaned) name carries the
extension `.png` sanitizes to at most 200 characters still ending in
`.png`. -/
theorem sanitize_filename_spec (t : String) :
    sanitize_filename t = sanitizeStaged t ∧
    (∀ t2, t = t2 → sanitize_filename t = sanitize_filename t2) ∧
    (t.length > 200 →
      (splitextList (replaceBadChars (unquote t)).data).2 = ".png".data →
      (sanitize_filename t).length ≤ 200 ∧
      ∃ nm, (sanitize_filename t).data = nm ++ ".png".data) := by
  refine ⟨rfl, fun t2 ht => ht ▸ rfl, fun _ hext => ?_⟩
  have heq : sanitize_filename t = truncateStep (replaceBadChars (unquote t)) := rfl
  rw [heq]
  by_cases hlen : (replaceBadChars (unquote t)).length > 200
  · simp only [truncateStep, hlen, if_pos]
    constructor
    · have h4 : (".png".data).length = 4 := by decide
      simp only [String.length, hext, List.length_append, List.length_take, h4]
      have h195 : min 195 (splitextList (replaceBadChars (unquote t)).data).1.length ≤ 195 :=
        Nat.min_le_left _ _
      omega
    · exact ⟨_, by rw [hext]⟩
  · simp only [truncateStep, hlen, if_neg, not_false_eq_true]
    constructor
    · omega
    · refine ⟨(splitextList (replaceBadChars (unquote t)).data).1, ?_⟩
      have e := splitext_append (replaceBadChars (unquote t)).data
      rw [hext] at e
      exact e.symm

/-- A 201-character title with extension `.png`, for the sanitizer
witness. -/
def longPngName : String := String.mk (List.replicate 197 'a' ++ ".png".data)

set_option maxRecDepth 4000 in
/-- C3 witness: the sanitizer bound at a concrete 201-character `.png`
title. -/
theorem sanitize_filename_spec_witness :
    (longPngName.length > 200 ∧
     (splitextList (replaceBadChars (unquote longPngName)).data).2 = ".png".data) ∧
    (sanitize_filename longPngName).length ≤ 200 :=
  ⟨⟨by decide, by decide⟩,
   ((sanitize_filename_spec longPngName).2.2 (by decide) (by decide)).1⟩

/-- C4: whenever the file-page fetch succeeds and the primary selector
yields nothing (its container or anchor is absent, or the anchor's href is
empty), the Resolver returns the fallback (`fullMedia`) anchor's href
resolved against the base host; and when the fallback matches nothing
either, it returns absence. -/
theorem resolver_fallback (oracle : String → Option FilePageDoc) (url : String)
    (d : FilePageDoc) (hfetch : oracle url = some d)
    (hprimary : d.fullImageHref = none ∨ d.fullImageHref = some "") :
    (∀ h2, d.fullMediaHref = some h2 →
        get_full_image_url oracle url = some (urljoin BASE_URL h2)) ∧
    (d.fullMediaHref = none → get_full_image_url oracle url = none) := by
  constructor
  · intro h2 hm
    cases hprimary with
    | inl hp => simp [get_full_image_url, hfetch, hp, hm]
    | inr hp => simp [get_full_image_url, hfetch, hp, hm]
  · intro hm
    cases hprimary with
    | inl hp => simp [get_full_image_url, hfetch, hp, hm]
    | inr hp => simp [get_full_image_url, hfetch, hp, hm]

/-- Fetch oracle for the resolver witness: one file page whose primary
selector is absent and whose fallback anchor points at `/images/A.png`. -/
def oracle4 : String → Option FilePageDoc :=
  fun u => if u = "https://minecraft.wiki/w/File:A.png"
           then some ⟨none, some "/images/A.png"⟩ else none

/-- C4 witness: the fallback resolution at a concrete file page. -/
theorem resolver_fallback_witness :
    (oracle4 "https://minecraft.wiki/w/File:A.png" =
        some ⟨none, some "/images/A.png"⟩) ∧
    get_full_image_url oracle4 "https://minecraft.wiki/w/File:A.png" =
      some "https://minecraft.wiki/images/A.png" :=
  ⟨by decide,
   ((resolver_fallback oracle4 "https://minecraft.wiki/w/File:A.png"
       ⟨none, some "/images/A.png"⟩ (by decide) (Or.inl rfl)).1
     "/images/A.png" rfl).trans (by decide)⟩

/-- Upstream behaviour exhibiting the C5 divergence: every file page
resolves, and every download stream fails after one chunk was written. -/
def w5 : World :=
  { pages := fun _ => some ⟨some "/images/Creeper.png", none⟩,
    dl := fun _ => DlOutcome.failMid [9] }

/-- C5: the code violates the claim.  `download_image` opens the
destination before the stream is consumed, so a request that fails partway
through streaming reports failure yet leaves a (partial) file at the
destination — which a later pass then treats as "already exists" and
skips.  (Failures raised before the body — transport error, timeout,
non-2xx status — do leave no file, since `raise_for_status` precedes
`open`.) -/
theorem download_failure_leaves_file :
    (download_image (DlOutcome.failMid [9])
        (destPath "https://minecraft.wiki/w/File:Creeper.png") emptyFS).1 = false ∧
    (download_image (DlOutcome.failMid [9])
        (destPath "https://minecraft.wiki/w/File:Creeper.png") emptyFS).2
        (destPath "https://minecraft.wiki/w/File:Creeper.png") = some [9] ∧
    (download_image DlOutcome.failEarly
        (destPath "https://minecraft.wiki/w/File:Creeper.png") emptyFS).2
        (destPath "https://minecraft.wiki/w/File:Creeper.png") = none ∧
    (processItem w5 (initState emptyFS)
        "https://minecraft.wiki/w/File:Creeper.png").tally.failed = 1 ∧
    (processItem w5 (initState emptyFS)
        "https://minecraft.wiki/w/File:Creeper.png").fs
        (destPath "https://minecraft.wiki/w/File:Creeper.png") = some [9] ∧
    (processItem w5
        (processItem w5 (initState emptyFS) "https://minecraft.wiki/w/File:Creeper.png")
        "https://minecraft.wiki/w/File:Creeper.png").tally.skipped = 1 := by
  decide

/-- C9: for every catalog entry, the destination filename is
`minecraft-<name>` with extension `.gif` when the source title ends in
`.gif` and `.png` otherwise; and a successfully resolved and downloaded
entry is saved under exactly that filename in the output directory. -/
theorem item_filename_contract (w : ItemsWorld) (st : RunState)
    (name title u : String) (bs : List Nat)
    (hne : st.fs (itemDestPath name title) = none)
    (hapi : w.api title = some u)
    (hok : w.dl u = DlOutcome.ok bs) :
    itemFilename name title =
      "minecraft-" ++ name ++ (if strEndsWith title ".gif" then ".gif" else ".png") ∧
    (processEntry w st (name, title)).fs
        (OUTPUT_DIR ++ "/" ++ ("minecraft-" ++ name ++ itemExt title)) = some bs ∧
    (processEntry w st (name, title)).tally.downloaded = st.tally.downloaded + 1 := by
  have hne2 : st.fs (OUTPUT_DIR ++ "/" ++ ("minecraft-" ++ name ++ itemExt title)) = none := by
    simpa [itemDestPath, itemFilename] using hne
  refine ⟨rfl, ?_, ?_⟩
  · simp [processEntry, hne2, hapi, hok, download_image, itemDestPath, itemFilename]
  · simp [processEntry, hne2, hapi, hok, download_image, itemDestPath, itemFilename]

/-- Upstream behaviour for the C9 witness: the API resolves the
diamond-sword title and the download delivers `[3]`. -/
def itemsW9 : ItemsWorld :=
  { api := fun t => if t = "File:Diamond_Sword_JE3_BE3.png"
             then some "https://minecraft.wiki/images/Diamond_Sword_JE3_BE3.png" else none,
    dl := fun _ => DlOutcome.ok [3] }

/-- C9 witness: the catalog's `diamond-sword` entry ends up saved as
`minecraft-diamond-sword.png`. -/
theorem item_filename_contract_witness :
    (("diamond-sword", "File:Diamond_Sword_JE3_BE3.png") ∈ ITEMS ∧
     (initState emptyFS).fs
        (itemDestPath "diamond-sword" "File:Diamond_Sword_JE3_BE3.png") = none ∧
     itemsW9.api "File:Diamond_Sword_JE3_BE3.png" =
        some "https://minecraft.wiki/images/Diamond_Sword_JE3_BE3.png" ∧
     itemFilename "diamond-sword" "File:Diamond_Sword_JE3_BE3.png" =
        "minecraft-diamond-sword.png") ∧
    (processEntry itemsW9 (initState emptyFS)
        ("diamond-sword", "File:Diamond_Sword_JE3_BE3.png")).fs
        (OUTPUT_DIR ++ "/" ++
          ("minecraft-" ++ "diamond-sword" ++ itemExt "File:Diamond_Sword_JE3_BE3.png")) =
      some [3] :=
  ⟨⟨by decide, by decide, by decide, by decide⟩,
   (item_filename_contract itemsW9 (initState emptyFS) "diamond-sword"
      "File:Diamond_Sword_JE3_BE3.png"
      "https://minecraft.wiki/images/Diamond_Sword_JE3_BE3.png" [3]
      (by decide) (by decide) (by decide)).2.1⟩

/-- C1: an item whose destination path already exists when it is processed
triggers no network request, no filesystem change and a `skipped` report;
consequently, when the first run has populated every item's destination, a
second full run against the same upstream world issues zero network
requests (in particular zero downloads), reports every item skipped, and
leaves the filesystem — the directory contents — identical. -/
theorem idempotent_second_run (w : World) (items : List String) (fs0 : FS)
    (hpop : ∀ u ∈ items, (runMain w items (initState fs0)).fs (destPath u) ≠ none) :
    (∀ (st : RunState) (u : String), st.fs (destPath u) ≠ none →
        processItem w st u =
          { st with tally := { st.tally with skipped := st.tally.skipped + 1 } }) ∧
    runMain w items (initState ((runMain w items (initState fs0)).fs)) =
      { fs := (runMain w items (initState fs0)).fs,
        tally := { downloaded := 0, skipped := items.length, failed := 0 },
        requests := [] } := by
  refine ⟨fun st u h => processItem_skip w st u h, ?_⟩
  have h := runMain_all_skip w items
    (initState ((runMain w items (initState fs0)).fs)) (fun u hu => hpop u hu)
  simpa [initState] using h

/-- Upstream behaviour for the C1 witness: every file page resolves and
every download succeeds. -/
def w1 : World :=
  { pages := fun _ => some ⟨some "/images/A.png", none⟩,
    dl := fun _ => DlOutcome.ok [1] }

/-- The single discovered file page of the C1 witness. -/
def items1 : List String := ["https://minecraft.wiki/w/File:A.png"]

/-- C1 witness: after a first run that populated the directory, the second
run is all-skipped with no requests and an unchanged filesystem. -/
theorem idempotent_second_run_witness :
    (runMain w1 items1 (initState emptyFS)).fs
        (destPath "https://minecraft.wiki/w/File:A.png") ≠ none ∧
    runMain w1 items1 (initState ((runMain w1 items1 (initState emptyFS)).fs)) =
      { fs := (runMain w1 items1 (initState emptyFS)).fs,
        tally := { downloaded := 0, skipped := items1.length, failed := 0 },
        requests := [] } :=
  ⟨by decide, (idempotent_second_run w1 items1 emptyFS (by decide)).2⟩

/-- C7: a failure on one item — a fetch transport error or resolution miss
(the Resolver returns absence) or a download error — never aborts the run:
the run over `xs ++ u :: ys` equals the run over `ys` continued from the
state after processing `xs` and the failing `u`, and the failing item
increments exactly the `failed` counter. -/
theorem failure_isolation (w : World) (xs ys : List String) (u : String) (fs0 : FS)
    (hne : (runMain w xs (initState fs0)).fs (destPath u) = none)
    (hfail : get_full_image_url w.pages u = none ∨
      ∃ iu, get_full_image_url w.pages u = some iu ∧ dlFails (w.dl iu) = true) :
    runMain w (xs ++ u :: ys) (initState fs0) =
      runMain w ys (processItem w (runMain w xs (initState fs0)) u) ∧
    (processItem w (runMain w xs (initState fs0)) u).tally.failed =
      (runMain w xs (initState fs0)).tally.failed + 1 ∧
    (processItem w (runMain w xs (initState fs0)) u).tally.downloaded =
      (runMain w xs (initState fs0)).tally.downloaded ∧
    (processItem w (runMain w xs (initState fs0)) u).tally.skipped =
      (runMain w xs (initState fs0)).tally.skipped := by
  refine ⟨by simp [runMain, List.foldl_append], ?_⟩
  rcases hfail with hres | ⟨iu, hiu, hdl⟩
  · simp [processItem, hne, hres]
  · cases hcd : w.dl iu with
    | ok bs => rw [hcd] at hdl; simp [dlFails] at hdl
    | failEarly => simp [processItem, hne, hiu, hcd, download_image]
    | failMid bs => simp [processItem, hne, hiu, hcd, download_image]

/-- Upstream behaviour for the C7 witness: fetching item 3's file page
raises a transport error (`get_page` returns `None`), everything else
succeeds. -/
def w7 : World :=
  { pages := fun s =>
      if s = "https://minecraft.wiki/w/File:M3.png" then none
      else some ⟨some "/i.png", none⟩,
    dl := fun _ => DlOutcome.ok [7] }

/-- Items before the failing one in the C7 witness. -/
def xs7 : List String :=
  ["https://minecraft.wiki/w/File:M1.png", "https://minecraft.wiki/w/File:M2.png"]

/-- The failing item of the C7 witness. -/
def u7 : String := "https://minecraft.wiki/w/File:M3.png"

/-- Items after the failing one in the C7 witness. -/
def ys7 : List String :=
  ["https://minecraft.wiki/w/File:M4.png", "https://minecraft.wiki/w/File:M5.png"]

/-- C7 witness: of 5 items whose third fetch raises, the other four are
processed to completion and the run reports `downloaded = 4`, `failed = 1`. -/
theorem failure_isolation_witness :
    ((runMain w7 xs7 (initState emptyFS)).fs (destPath u7) = none ∧
     get_full_image_url w7.pages u7 = none) ∧
    runMain w7 (xs7 ++ u7 :: ys7) (initState emptyFS) =
      runMain w7 ys7 (processItem w7 (runMain w7 xs7 (initState emptyFS)) u7) ∧
    (runMain w7 (xs7 ++ u7 :: ys7) (initState emptyFS)).tally =
      ⟨4, 0, 1⟩ :=
  ⟨⟨by decide, by decide⟩,
   (failure_isolation w7 xs7 ys7 u7 emptyFS (by decide) (Or.inl (by decide))).1,
   by decide⟩

/-- C6: on a finite linear chain of category pages whose last page has no
(continuing) "next page" frontier, the Category Walker terminates with any
fuel of at least the chain length, counting exactly one visit per page of
the chain and returning precisely the union of the pages' member links. -/
theorem pagination_termination (oracle : String → Option CategoryPage)
    (u0 : String) (p0 : CategoryPage) (rest : List (String × CategoryPage)) (k : Nat)
    (h : ChainTo oracle ((u0, p0) :: rest) none) :
    (get_image_urls_from_category oracle (k + rest.length + 1) u0).2 = rest.length + 1 ∧
    ∀ x, x ∈ (get_image_urls_from_category oracle (k + rest.length + 1) u0).1 ↔
      ∃ e ∈ (u0, p0) :: rest, x ∈ pageLinks e.2 := by
  have hw := walkPages_chain oracle none rest u0 p0 h k [] 0
  constructor
  · simp only [get_image_urls_from_category]
    rw [hw]
    simp only [walkPages]
    omega
  · intro x
    simp only [get_image_urls_from_category]
    rw [hw]
    simp only [walkPages, List.mem_dedup]
    rw [mem_foldl_pageFileLinks]
    simp

/-- C8: when the fetch of the next category page fails partway through
pagination, the Walker stops there (one extra counted visit for the failed
fetch) and still returns the deduplicated union of the links collected from
all previously fetched pages. -/
theorem pagination_partial_results (oracle : String → Option CategoryPage)
    (u0 : String) (p0 : CategoryPage) (rest : List (String × CategoryPage))
    (uk : String) (k : Nat)
    (h : ChainTo oracle ((u0, p0) :: rest) (some uk))
    (hfail : oracle uk = none) :
    (get_image_urls_from_category oracle ((k + 1) + rest.length + 1) u0).2 =
      rest.length + 1 + 1 ∧
    ∀ x, x ∈ (get_image_urls_from_category oracle ((k + 1) + rest.length + 1) u0).1 ↔
      ∃ e ∈ (u0, p0) :: rest, x ∈ pageLinks e.2 := by
  have hw := walkPages_chain oracle (some uk) rest u0 p0 h (k + 1) [] 0
  constructor
  · simp only [get_image_urls_from_category]
    rw [hw]
    simp only [walkPages, hfail]
    omega
  · intro x
    simp only [get_image_urls_from_category]
    rw [hw]
    simp only [walkPages, hfail, List.mem_dedup]
    rw [mem_foldl_pageFileLinks]
    simp

/-- First category page of the pagination witness: one file link found by
both selectors, and a "next page" anchor. -/
def page6a : CategoryPage := ⟨["/w/File:P1.png"], ["/w/File:P1.png"], some "/w/C2"⟩

/-- Second category page of the pagination witness. -/
def page6b : CategoryPage := ⟨["/w/File:P2.png"], [], some "/w/C3"⟩

/-- Third category page of the pagination witness: no "next page" link. -/
def page6c : CategoryPage := ⟨["/w/File:P3.png"], [], none⟩

/-- Fetch oracle of the C6 witness: a 3-page chain. -/
def oracle6 : String → Option CategoryPage := fun u =>
  if u = "https://minecraft.wiki/w/C1" then some page6a
  else if u = "https://minecraft.wiki/w/C2" then some page6b
  else if u = "https://minecraft.wiki/w/C3" then some page6c
  else none

/-- Tail of the C6 witness chain. -/
def rest6 : List (String × CategoryPage) :=
  [("https://minecraft.wiki/w/C2", page6b), ("https://minecraft.wiki/w/C3", page6c)]

/-- C6 witness: on a concrete 3-page chain whose third page has no "next
page" link, the Walker visits exactly 3 pages. -/
theorem pagination_termination_witness :
    ChainTo oracle6 (("https://minecraft.wiki/w/C1", page6a) :: rest6) none ∧
    (get_image_urls_from_category oracle6 3 "https://minecraft.wiki/w/C1").2 = 3 := by
  have hch : ChainTo oracle6 (("https://minecraft.wiki/w/C1", page6a) :: rest6) none := by
    simp only [rest6, ChainTo]
    refine ⟨by decide, by decide, by decide, by decide, by decide, by decide⟩
  exact ⟨hch,
    (pagination_termination oracle6 "https://minecraft.wiki/w/C1" page6a rest6 0 hch).1⟩

/-- First category page of the partial-results witness. -/
def page8a : CategoryPage := ⟨["/w/File:Q1.png"], [], some "/w/D2"⟩

/-- Second category page of the partial-results witness; its "next page"
link points at a page whose fetch will fail. -/
def page8b : CategoryPage := ⟨["/w/File:Q2.png"], [], some "/w/D3"⟩

/-- Fetch oracle of the C8 witness: two good pages, then a failing fetch. -/
def oracle8 : String → Option CategoryPage := fun u =>
  if u = "https://minecraft.wiki/w/D1" then some page8a
  else if u = "https://minecraft.wiki/w/D2" then some page8b
  else none

/-- Tail of the C8 witness chain. -/
def rest8 : List (String × CategoryPage) := [("https://minecraft.wiki/w/D2", page8b)]

/-- C8 witness: a concrete chain of two fetched pages followed by a failing
fetch still yields both pages' links, with three counted page visits. -/
theorem pagination_partial_results_witness :
    (ChainTo oracle8 (("https://minecraft.wiki/w/D1", page8a) :: rest8)
        (some "https://minecraft.wiki/w/D3") ∧
     oracle8 "https://minecraft.wiki/w/D3" = none) ∧
    (get_image_urls_from_category oracle8 3 "https://minecraft.wiki/w/D1").2 = 3 := by
  have hch : ChainTo oracle8 (("https://minecraft.wiki/w/D1", page8a) :: rest8)
      (some "https://minecraft.wiki/w/D3") := by
    simp only [rest8, ChainTo]
    refine ⟨by decide, by decide, by decide, by decide⟩
  exact ⟨⟨hch, by decide⟩,
    (pagination_partial_results oracle8 "https://minecraft.wiki/w/D1" page8a rest8
      "https://minecraft.wiki/w/D3" 0 hch (by decide)).1⟩
